import Mathlib

/-!
Verification of the orchestration engine of an LLM trading-agent pipeline.

The development shallowly embeds the control logic of the repository:
the adversarial bull/bear/judge debate state machine
(Agents/researcher_debate.py), the parallel analyst fan-out and the
decision retry loop (Agents/workflow.py), the sequential risk-stance
chain (Agents/Risk_Management/), and the trader prompt construction
(Agents/Trader/agent.py).  Every LLM invocation is modelled as an
opaque function parameter (a stub/oracle), since the engine treats each
producer as an opaque text-returning capability.
-/

/-! ## Python string primitives -/

/-- Does the character list start with the given pattern?  Mirrors the
test performed at one position by the Python substring operator. -/
def subAt : List Char → List Char → Bool
  | _, [] => true
  | [], _ :: _ => false
  | c :: cs, p :: ps => c == p && subAt cs ps

/-- Does the pattern occur contiguously inside the character list?
Mirrors Python membership `pat in s` on strings. -/
def subIn : List Char → List Char → Bool
  | [], pat => pat.isEmpty
  | l@(_ :: cs), pat => subAt l pat || subIn cs pat

/-- Python `needle in hay` on strings (contiguous substring test). -/
def pyIn (needle hay : String) : Bool := subIn hay.data needle.data

/-- Python `s.startswith(pre)`. -/
def pyStartsWith (s pre : String) : Bool := subAt s.data pre.data

/-- Python `s.lower()` (character-wise; the texts involved are ASCII). -/
def pyLower (s : String) : String := ⟨s.data.map Char.toLower⟩

/-- Python `s.upper()` (character-wise; the texts involved are ASCII). -/
def pyUpper (s : String) : String := ⟨s.data.map Char.toUpper⟩

/-! ## Debate state machine (Agents/researcher_debate.py) -/

/-- One transcript entry: a dict with keys role and content, as appended
by DebateState.add_message. -/
structure DebateMsg where
  role : String
  content : String
deriving DecidableEq, Repr

/-- DebateState from researcher_debate.py: ticker, the four context
reports, the transcript (history), the current turn, the round counter,
the round bound, and the judge verdict text (None before the first
judge turn). -/
structure DebateState where
  ticker : String
  technical : String
  sentiment : String
  news : String
  fundamentals : String
  history : List DebateMsg
  turn : String
  round : Nat
  max_rounds : Nat
  judge_verdict : Option String
deriving DecidableEq, Repr

/-- DebateState constructor defaults: history=[], turn="bull", round=0,
judge_verdict=None; max_rounds is set explicitly by the runner. -/
def initDebateState (ticker technical sentiment news fundamentals : String)
    (max_rounds : Nat) : DebateState :=
  { ticker := ticker, technical := technical, sentiment := sentiment,
    news := news, fundamentals := fundamentals, history := [],
    turn := "bull", round := 0, max_rounds := max_rounds,
    judge_verdict := none }

/-- DebateState.add_message: append a role/content entry to history. -/
def DebateState.add_message (s : DebateState) (role content : String) : DebateState :=
  { s with history := s.history ++ [⟨role, content⟩] }

/-- Type of the bullish/bearish researcher capability:
get_bullish_research(ticker, technical, sentiment, news, fundamentals)
returning the produced argument text. -/
def ResearchFn : Type := String → String → String → String → String → String

/-- Type of the judge capability: judge_debate(ticker, debate_history)
returning the verdict text. -/
def JudgeFn : Type := String → List DebateMsg → String

/-- bull_node: run the bullish researcher on the context reports, append
the result as a bull entry, set turn to bear. -/
def bull_node (bull : ResearchFn) (s : DebateState) : DebateState :=
  let result := bull s.ticker s.technical s.sentiment s.news s.fundamentals
  { s.add_message "bull" result with turn := "bear" }

/-- bear_node: run the bearish researcher, append the result as a bear
entry, set turn to judge, and increment the round counter. -/
def bear_node (bear : ResearchFn) (s : DebateState) : DebateState :=
  let result := bear s.ticker s.technical s.sentiment s.news s.fundamentals
  { s.add_message "bear" result with turn := "judge", round := s.round + 1 }

/-- judge_node: run the judge on the full transcript, append its text as
a judge entry and record it as judge_verdict. -/
def judge_node (judge : JudgeFn) (s : DebateState) : DebateState :=
  let verdict := judge s.ticker s.history
  { s.add_message "judge" verdict with judge_verdict := some verdict }

/-- debate_router from researcher_debate.py.  With a recorded verdict:
a text starting (case-insensitively) with "no" routes to "bull"; else a
text containing "bull", "bear" or "tie" routes to "end"; otherwise, and
also when no verdict exists, route to "end" when round has reached
max_rounds and to the current turn string otherwise.  (The assignment
state.turn = "bull" in the source mutates a local copy built by
from_dict and never reaches the graph state, so the router is a pure
function of the state.) -/
def debate_router (s : DebateState) : String :=
  match s.judge_verdict with
  | some jv =>
      let verdict := pyLower jv
      if pyStartsWith verdict "no" then "bull"
      else if pyIn "bull" verdict || pyIn "bear" verdict || pyIn "tie" verdict then "end"
      else if s.max_rounds ≤ s.round then "end"
      else s.turn
  | none =>
      if s.max_rounds ≤ s.round then "end"
      else s.turn

/-- Errors raised by the langgraph runtime while driving the compiled
debate graph: exceeding the recursion limit, or a conditional-edge
router returning a label absent from the edge map. -/
inductive DebateError
  | recursionLimit
  | unknownRoute (route : String)
deriving DecidableEq, Repr

/-- Execution of the compiled debate graph, fuelled by the langgraph
recursion limit.  Nodes are the graph node names; the conditional edges
out of "bull" and "bear" are the constant lambdas of the source, the
edge out of "judge" consults debate_router against the edge map
containing exactly the labels "bull" and "end", and the "end" node
(debate_end, the identity) leads to END, terminating with the final
state. -/
def runDebateFrom (bull bear : ResearchFn) (judge : JudgeFn) :
    Nat → String → DebateState → Except DebateError DebateState
  | 0, _, _ => .error .recursionLimit
  | Nat.succ fuel, node, s =>
      if node = "bull" then
        runDebateFrom bull bear judge fuel "bear" (bull_node bull s)
      else if node = "bear" then
        runDebateFrom bull bear judge fuel "judge" (bear_node bear s)
      else if node = "judge" then
        let s2 := judge_node judge s
        let route := debate_router s2
        if route = "bull" then runDebateFrom bull bear judge fuel "bull" s2
        else if route = "end" then runDebateFrom bull bear judge fuel "end" s2
        else .error (.unknownRoute route)
      else if node = "end" then .ok s
      else .error (.unknownRoute node)

/-- Default recursion limit of the langgraph runtime (number of
super-steps ainvoke will execute before raising GraphRecursionError). -/
def langgraphRecursionLimit : Nat := 25

/-- run_debate_simulation_async: build the initial state with the given
max_rounds and drive the compiled graph from the "bull" entry point. -/
def run_debate_simulation (bull bear : ResearchFn) (judge : JudgeFn)
    (ticker technical sentiment news fundamentals : String)
    (max_rounds : Nat) : Except DebateError DebateState :=
  runDebateFrom bull bear judge langgraphRecursionLimit "bull"
    (initDebateState ticker technical sentiment news fundamentals max_rounds)

/-- One full bull followed by bear followed by judge cycle of the debate
graph (a complete round). -/
def debateCycle (bull bear : ResearchFn) (judge : JudgeFn) (s : DebateState) : DebateState :=
  judge_node judge (bear_node bear (bull_node bull s))

/-- Roles of the transcript entries, in order. -/
def rolesOf (s : DebateState) : List String := s.history.map DebateMsg.role

/-- The role sequence of k completed rounds: k repetitions of
bull, bear, judge. -/
def rolePattern (k : Nat) : List String :=
  (List.replicate k ["bull", "bear", "judge"]).flatten

/-- Constant bullish or bearish researcher stub. -/
def constResearcher (t : String) : ResearchFn := fun _ _ _ _ _ => t

/-- Judge stub that always answers a fixed text. -/
def constJudge (t : String) : JudgeFn := fun _ _ => t

/-! ## Parallel analyst fan-out (Agents/workflow.py, run_parallel_analysts) -/

/-- run_parallel_analysts: launch the six analyst tasks and join them
with asyncio.gather.  Each producer either returns its report text or
raises (modelled as Except.error carrying the exception message).
gather is called without return_exceptions, so a raising task makes the
whole join raise and no report dict is built; only when all six succeed
is the six-key dict returned, in the literal key order of the source. -/
def run_parallel_analysts
    (bullish bearish technical sentiment news fundamentals : String → Except String String)
    (ticker : String) : Except String (List (String × String)) := do
  let r0 ← bullish ticker
  let r1 ← bearish ticker
  let r2 ← technical ticker
  let r3 ← sentiment ticker
  let r4 ← news ticker
  let r5 ← fundamentals ticker
  pure [("bullish_report", r0), ("bearish_report", r1), ("technical_report", r2),
        ("sentiment_report", r3), ("news_report", r4), ("fundamentals_report", r5)]

/-- The six report keys of the analyst bundle, in source order. -/
def analystReportKeys : List String :=
  ["bullish_report", "bearish_report", "technical_report",
   "sentiment_report", "news_report", "fundamentals_report"]

/-- Python dict lookup d[k] on the report bundle, as an Option. -/
def dictGet (d : List (String × String)) (k : String) : Option String :=
  (d.find? (fun kv => kv.1 == k)).map (fun kv => kv.2)

/-! ## Decision retry loop (Agents/workflow.py, lines 61 to 104) -/

/-- Result of the decision/reflection stage: the last trader decision
text, the last reflection text, and the final retry_count. -/
structure RetryOutcome where
  trader_decision : String
  reflection : String
  retry_count : Nat
deriving DecidableEq, Repr

/-- The hallucination test of the workflow loop guard:
"HALLUCINATION" in reflection_result["reflection"].upper(). -/
def hallFlagged (reflection : String) : Bool :=
  pyIn "HALLUCINATION" (pyUpper reflection)

/-- The while loop of workflow (lines 82 to 104): while the reflection
text contains "HALLUCINATION" (upper-cased) and retry_count < 2,
regenerate the decision and the reflection and increment retry_count.
gen k is the trader capability output on attempt k; validate k d is the
reflection capability output on attempt k for decision d (each call of
the source recomputes both with fresh LLM output, modelled by the
attempt index). -/
def retryWhile (gen : Nat → String) (validate : Nat → String → String)
    (dec refl : String) (retry_count : Nat) : RetryOutcome :=
  if h : hallFlagged refl = true ∧ retry_count < 2 then
    let dec2 := gen (retry_count + 1)
    let refl2 := validate (retry_count + 1) dec2
    retryWhile gen validate dec2 refl2 (retry_count + 1)
  else
    ⟨dec, refl, retry_count⟩
termination_by 2 - retry_count
decreasing_by omega

/-- The whole decision stage of workflow: the initial decision and
reflection (lines 61 to 80, attempt 0) followed by the bounded retry
while loop with retry_count starting at 0. -/
def decisionRetryLoop (gen : Nat → String) (validate : Nat → String → String) : RetryOutcome :=
  let d0 := gen 0
  let r0 := validate 0 d0
  retryWhile gen validate d0 r0 0

/-! ## Trader agent prompt (Agents/Trader/agent.py) -/

/-- Prompt built by TraderAgent.trade_decision_async from its parameters
in the order of its own signature: (company_of_interest,
research_report, market_report, sentiment_report, news_report,
risk_report, fundamentals_report). -/
def trade_decision_async_prompt
    (company_of_interest research_report market_report sentiment_report
     news_report risk_report fundamentals_report : String) : String :=
  "Company: " ++ company_of_interest ++ "\n" ++
  "Research Report: " ++ research_report ++ "\n" ++
  "Market Report: " ++ market_report ++ "\n" ++
  "Sentiment Report: " ++ sentiment_report ++ "\n" ++
  "News Report: " ++ news_report ++ "\n" ++
  "Fundamentals Report: " ++ fundamentals_report ++ "\n" ++
  "Risk Report: " ++ risk_report ++ "\n\n" ++
  "Based on the above, provide a clear rationale and end your response with only one of these: BUY, HOLD, or SELL."

/-- Prompt produced through the synchronous wrapper
TraderAgent.trade_decision, whose parameter order ends with
(..., news_report, fundamentals_report, risk_report) and which forwards
all seven arguments positionally to trade_decision_async, whose
parameter order ends with (..., news_report, risk_report,
fundamentals_report): the sixth forwarded value (fundamentals_report)
lands in the risk_report slot and the seventh (risk_report) lands in
the fundamentals_report slot. -/
def trade_decision_prompt
    (company_of_interest research_report market_report sentiment_report
     news_report fundamentals_report risk_report : String) : String :=
  trade_decision_async_prompt company_of_interest research_report market_report
    sentiment_report news_report fundamentals_report risk_report

/-! ## Reflection agent prompt (Agents/Reflection/agent.py) -/

/-- Prompt built by ReflectionAgent.reflect_async from the decision and
the context reports. -/
def reflect_prompt
    (company_of_interest trader_decision research_report market_report
     sentiment_report news_report fundamentals_report risk_report : String) : String :=
  "Company: " ++ company_of_interest ++ "\n" ++
  "Trader Decision: " ++ trader_decision ++ "\n" ++
  "Research Report: " ++ research_report ++ "\n" ++
  "Market Report: " ++ market_report ++ "\n" ++
  "Sentiment Report: " ++ sentiment_report ++ "\n" ++
  "News Report: " ++ news_report ++ "\n" ++
  "Fundamentals Report: " ++ fundamentals_report ++ "\n" ++
  "Risk Report: " ++ risk_report ++ "\n\n" ++
  "Does the trader\x27s response contain any hallucinated or unsupported claims? If so, reply with \x27HALLUCINATION DETECTED\x27 and explain. If not, reply with \x27NO HALLUCINATION\x27."

/-! ## Risk stance chain (Agents/Risk_Management/) -/

/-- Prompt built by AggressiveRiskDebator.debate.  Parameters follow the
source signature order (ticker_symbol, sentiment_report, news_report,
fundamentals_report, safe_response, neutral_response, history); the
stance chain of synthesizer.py calls it with only the first four, so
safe_response, neutral_response and history keep their empty defaults. -/
def aggressive_debate_prompt
    (ticker_symbol sentiment_report news_report fundamentals_report
     safe_response neutral_response history : String) : String :=
  "\n**Your role:** \n- Directly challenge the conservative and neutral analysts.\n- Use the RiskModel tool for quantitative risk-reward analysis for " ++
  ticker_symbol ++
  ".\n- Incorporate the following reports:\n    - Social Media Sentiment: " ++
  sentiment_report ++
  "\n    - World Affairs/News: " ++
  news_report ++
  "\n    - Company Fundamentals: " ++
  fundamentals_report ++
  "\n- Here is the current conversation history: " ++
  history ++
  "\n- Conservative Analyst\x27s last argument: " ++
  safe_response ++
  "\n- Neutral Analyst\x27s last argument: " ++
  neutral_response ++
  "\n\nIf there are no responses from the other analysts, do not hallucinate—focus on your own case.\n\n**Debate structure:** \n1. Summarize your high-reward thesis for " ++
  ticker_symbol ++
  ".\n2. Rebut opposing points (if any).\n3. Use data and the RiskModel tool.\n4. Finish with a persuasive conclusion.\n"

/-- Prompt built by NeutralRiskAnalyst.debate; parameter order follows
the source signature (ticker_symbol, sentiment_report, news_report,
fundamentals_report, current_risky_response, current_safe_response,
history). -/
def neutral_debate_prompt
    (ticker_symbol sentiment_report news_report fundamentals_report
     current_risky_response current_safe_response history : String) : String :=
  "\nAs the Neutral Risk Analyst, your role is to provide a balanced perspective, weighing both the potential benefits and risks of the trader\x27s decision or plan. You prioritize a well-rounded approach, evaluating the upsides and downsides while factoring in broader market trends, potential economic shifts, and diversification strategies.\n\nYour task is to challenge both the Risky and Safe Analysts, pointing out where each perspective may be overly optimistic or overly cautious. Use insights from the following data sources to support a moderate, sustainable strategy to adjust the trader\x27s decision:\n\nSocial Media Sentiment Report: " ++
  sentiment_report ++
  "\nLatest World Affairs Report: " ++
  news_report ++
  "\nCompany Fundamentals Report: " ++
  fundamentals_report ++
  "\n\nHere is the current conversation history: " ++
  history ++
  " \nHere is the last response from the risky analyst: " ++
  current_risky_response ++
  " \nHere is the last response from the safe analyst: " ++
  current_safe_response ++
  " \n\nIf there are no responses from the other viewpoints, do not hallucinate and just present your point.\n\nEngage actively by analyzing both sides critically, addressing weaknesses in the risky and conservative arguments to advocate for a more balanced approach. Challenge each of their points to illustrate why a moderate risk strategy might offer the best of both worlds, providing growth potential while safeguarding against extreme volatility. Output conversationally as if you are speaking without any special formatting.\n"

/-- Prompt built by SafeRiskAnalyst.debate; parameter order follows the
source signature (ticker_symbol, sentiment_report, news_report,
fundamentals_report, current_risky_response, current_neutral_response,
history). -/
def conservative_debate_prompt
    (ticker_symbol sentiment_report news_report fundamentals_report
     current_risky_response current_neutral_response history : String) : String :=
  "\nAs the Safe/Conservative Risk Analyst, your primary objective is to protect assets, minimize volatility, and ensure steady, reliable growth. You prioritize stability, security, and risk mitigation, carefully assessing potential losses, economic downturns, and market volatility. When evaluating the trader\x27s decision or plan, critically examine high-risk elements, pointing out where the decision may expose the firm to undue risk and where more cautious alternatives could secure long-term gains. \n\nYour task is to actively counter the arguments of the Risky and Neutral Analysts, highlighting where their views may overlook potential threats or fail to prioritize sustainability. Respond directly to their points, drawing from the following data sources to build a convincing case for a low-risk approach adjustment to the trader\x27s decision:\n\nSocial Media Sentiment Report: " ++
  sentiment_report ++
  "\nLatest World Affairs Report: " ++
  news_report ++
  "\nCompany Fundamentals Report: " ++
  fundamentals_report ++
  "\nHere is the current conversation history: " ++
  history ++
  " \nHere is the last response from the risky analyst: " ++
  current_risky_response ++
  " \nHere is the last response from the neutral analyst: " ++
  current_neutral_response ++
  " \n\nIf there are no responses from the other viewpoints, do not hallucinate and just present your point.\n\nEngage by questioning their optimism and emphasizing the potential downsides they may have overlooked. Address each of their counterpoints to showcase why a conservative stance is ultimately the safest path for the firm\x27s assets. Focus on debating and critiquing their arguments to demonstrate the strength of a low-risk strategy over their approaches. Output conversationally as if you are speaking without any special formatting.\n"

/-- Prompt built by RiskSynthesizer.synthesize over the three stance
texts, the trader plan and the debate history. -/
def synthesize_prompt
    (trader_plan aggressive_response neutral_response safe_response history : String) : String :=
  "\nYou are summarizing an internal debate between investment risk analysts about a trader\x27s plan:\n\nTrader Plan: " ++
  trader_plan ++
  "\n\n🔴 Aggressive Analyst said:\n" ++
  aggressive_response ++
  "\n\n⚪ Neutral Analyst said:\n" ++
  neutral_response ++
  "\n\n🟢 Safe Analyst said:\n" ++
  safe_response ++
  "\n\n🕓 Debate History:\n" ++
  history ++
  "\n\nYour job is to:\n1. Briefly summarize each analyst\x27s position.\n2. Compare and contrast them.\n3. Identify any flaws or oversights.\n4. Suggest a synthesized or final actionable recommendation.\n"

/-- Record of the sequential risk-stance chain of synthesizer.py: for
each of the four steps, the prompt handed to the agent (its recorded
input context) and the text the agent returned. -/
structure RiskChainTrace where
  risky_prompt : String
  risky_response : String
  neutral_prompt : String
  neutral_response : String
  safe_prompt : String
  safe_response : String
  synthesis_prompt : String
  synthesis_result : String

/-- The risk-stance chain driven at the bottom of synthesizer.py:
the aggressive stance first (only the three reports; the other-stance
slots keep their empty-string defaults), then the neutral stance with
the aggressive response passed as current_risky_response, then the safe
stance with both prior responses, then the synthesis over the three
stance texts.  Each invoke function is the corresponding opaque agent
capability from prompt to response text. -/
def risk_chain
    (invokeAggressive invokeNeutral invokeSafe invokeSynth : String → String)
    (ticker sentiment_report news_report fundamentals_report
     trader_plan synthesis_history : String) : RiskChainTrace :=
  let rp := aggressive_debate_prompt ticker sentiment_report news_report fundamentals_report "" "" ""
  let risky_response := invokeAggressive rp
  let np := neutral_debate_prompt ticker sentiment_report news_report fundamentals_report risky_response "" ""
  let neutral_response := invokeNeutral np
  let sp := conservative_debate_prompt ticker sentiment_report news_report fundamentals_report risky_response neutral_response ""
  let safe_response := invokeSafe sp
  let synp := synthesize_prompt trader_plan risky_response neutral_response safe_response synthesis_history
  ⟨rp, risky_response, np, neutral_response, sp, safe_response, synp, invokeSynth synp⟩

/-- Invariant carried through the debate graph: the transcript role
sequence at each node position, relative to the round counter. -/
def DebateNodeInv (node : String) (s : DebateState) : Prop :=
  (node = "bull" ∧ rolesOf s = rolePattern s.round) ∨
  (node = "bear" ∧ rolesOf s = rolePattern s.round ++ ["bull"]) ∨
  (node = "judge" ∧ 1 ≤ s.round ∧ rolesOf s = rolePattern (s.round - 1) ++ ["bull", "bear"]) ∨
  (node = "end" ∧ rolesOf s = rolePattern s.round)

/-- Verbatim containment: the needle occurs contiguously in the hay. -/
def verbatimIn (needle hay : String) : Prop :=
  ∃ p q, hay = p ++ (needle ++ q)

/-- Verbatim containment of two texts in the stated order. -/
def verbatimInOrder (first second hay : String) : Prop :=
  ∃ p q r, hay = p ++ (first ++ (q ++ (second ++ r)))

/-- Verbatim containment of three texts in the stated order. -/
def verbatimInOrder3 (first second third hay : String) : Prop :=
  ∃ p q r u, hay = p ++ (first ++ (q ++ (second ++ (r ++ (third ++ u)))))

/-! ## Workflow coordinator (Agents/workflow.py, workflow) -/

/-- String attribute read on a DebateState instance, modelling Python
getattr for the string-valued attributes.  Exactly the attributes
assigned in DebateState.__init__ exist on an instance; any other name
(in particular "synthesis", which no code path ever assigns) yields
none, i.e. AttributeError. -/
def DebateState.getStrAttr (s : DebateState) (a : String) : Option String :=
  if a = "ticker" then some s.ticker
  else if a = "technical" then some s.technical
  else if a = "sentiment" then some s.sentiment
  else if a = "news" then some s.news
  else if a = "fundamentals" then some s.fundamentals
  else if a = "turn" then some s.turn
  else none

/-- Exceptions that the workflow function can propagate. -/
inductive WorkflowError
  | producerFailure (msg : String)
  | debateFailure (e : DebateError)
  | attributeError (attr : String)
  | typeError (msg : String)
  | keyError (key : String)
deriving DecidableEq, Repr

/-- The dict returned by workflow (lines 106 to 112).  Its keys are
analyst_reports, debate_synthesis, risk_report, trader_decision and
reflection; note there is no key carrying retry_count. -/
structure WorkflowOut where
  analyst_reports : List (String × String)
  debate_synthesis : String
  risk_report : Option String
  trader_decision : String
  reflection : String
deriving DecidableEq, Repr

/-- Python str() rendering of an optional string, as interpolated into
an f-string (None renders as "None"). -/
def pyStrOpt : Option String → String
  | none => "None"
  | some s => s

/-- The call risk_synth.synthesize(ticker, sentiment, news,
fundamentals, history=None) at workflow line 50.
RiskSynthesizer.synthesize requires five positional parameters
(ticker_symbol, aggressive_response, neutral_response, safe_response,
trader_plan); the call site supplies only four plus the history
keyword, so Python raises TypeError at the call. -/
def workflow_synthesize_call : Except WorkflowError String :=
  .error (.typeError "synthesize() missing 1 required positional argument: trader_plan")

/-- workflow from Agents/workflow.py.  Stages: the parallel analyst
fan-out; run_debate_simulation with max_rounds=4 over the technical,
sentiment, news and fundamentals reports; the read
debate_state.synthesis (an attribute DebateState never defines); the
risk synthesizer call (whose argument list is short one required
parameter); risk_report = None; the initial trader decision and
reflection followed by the bounded retry loop; finally the result dict.
trader k p is the trader capability output for prompt p on attempt k,
and reflector k p likewise for the reflection capability. -/
def workflow
    (bullishP bearishP technicalP sentimentP newsP fundamentalsP : String → Except String String)
    (bullR bearR : ResearchFn) (judge : JudgeFn)
    (trader reflector : Nat → String → String)
    (ticker : String) : Except WorkflowError WorkflowOut := do
  let analyst_reports ←
    (run_parallel_analysts bullishP bearishP technicalP sentimentP newsP fundamentalsP ticker).mapError
      WorkflowError.producerFailure
  let technical_report ←
    match dictGet analyst_reports "technical_report" with
    | some v => Except.ok v
    | none => Except.error (WorkflowError.keyError "technical_report")
  let sentiment_report ←
    match dictGet analyst_reports "sentiment_report" with
    | some v => Except.ok v
    | none => Except.error (WorkflowError.keyError "sentiment_report")
  let news_report ←
    match dictGet analyst_reports "news_report" with
    | some v => Except.ok v
    | none => Except.error (WorkflowError.keyError "news_report")
  let fundamentals_report ←
    match dictGet analyst_reports "fundamentals_report" with
    | some v => Except.ok v
    | none => Except.error (WorkflowError.keyError "fundamentals_report")
  let debate_state ←
    (run_debate_simulation bullR bearR judge ticker technical_report sentiment_report
      news_report fundamentals_report 4).mapError WorkflowError.debateFailure
  let debate_synthesis ←
    match debate_state.getStrAttr "synthesis" with
    | some v => Except.ok v
    | none => Except.error (WorkflowError.attributeError "synthesis")
  let _risk_text ← workflow_synthesize_call
  -- risk_report = None (line 60); "market_report" is never a key of the
  -- bundle, so the conditional falls back to technical_report
  let risk_report : Option String := none
  let market_report :=
    match dictGet analyst_reports "market_report" with
    | some v => v
    | none => technical_report
  let outcome :=
    decisionRetryLoop
      (fun k => trader k (trade_decision_prompt ticker debate_synthesis market_report
        sentiment_report news_report fundamentals_report (pyStrOpt risk_report)))
      (fun k d => reflector k (reflect_prompt ticker d debate_synthesis market_report
        sentiment_report news_report fundamentals_report (pyStrOpt risk_report)))
  pure { analyst_reports := analyst_reports, debate_synthesis := debate_synthesis,
         risk_report := risk_report, trader_decision := outcome.trader_decision,
         reflection := outcome.reflection }

/-! ## Helper lemmas -/

theorem rolePattern_succ (k : Nat) :
    rolePattern (k + 1) = rolePattern k ++ ["bull", "bear", "judge"] := by
  unfold rolePattern
  rw [List.replicate_succ', List.flatten_append]
  simp

theorem rolesOf_bull_node (bull : ResearchFn) (s : DebateState) :
    rolesOf (bull_node bull s) = rolesOf s ++ ["bull"] := by
  simp [rolesOf, bull_node, DebateState.add_message]

theorem rolesOf_bear_node (bear : ResearchFn) (s : DebateState) :
    rolesOf (bear_node bear s) = rolesOf s ++ ["bear"] := by
  simp [rolesOf, bear_node, DebateState.add_message]

theorem rolesOf_judge_node (judge : JudgeFn) (s : DebateState) :
    rolesOf (judge_node judge s) = rolesOf s ++ ["judge"] := by
  simp [rolesOf, judge_node, DebateState.add_message]

theorem round_bull_node (bull : ResearchFn) (s : DebateState) :
    (bull_node bull s).round = s.round := by
  simp [bull_node, DebateState.add_message]

theorem round_bear_node (bear : ResearchFn) (s : DebateState) :
    (bear_node bear s).round = s.round + 1 := by
  simp [bear_node, DebateState.add_message]

theorem round_judge_node (judge : JudgeFn) (s : DebateState) :
    (judge_node judge s).round = s.round := by
  simp [judge_node, DebateState.add_message]

theorem runDebateFrom_roles (bull : ResearchFn) (bear : ResearchFn) (judge : JudgeFn) :
    ∀ (fuel : Nat) (node : String) (s s' : DebateState),
      DebateNodeInv node s →
      runDebateFrom bull bear judge fuel node s = .ok s' →
      rolesOf s' = rolePattern s'.round := by
  intro fuel
  induction fuel with
  | zero =>
      intro node s s' _ hrun
      simp [runDebateFrom] at hrun
  | succ n ih =>
      intro node s s' hinv hrun
      rw [runDebateFrom] at hrun
      by_cases hb : node = "bull"
      · rw [if_pos hb] at hrun
        refine ih "bear" _ s' ?_ hrun
        rcases hinv with ⟨_, hs⟩ | ⟨hn, _⟩ | ⟨hn, _⟩ | ⟨hn, _⟩
        · exact Or.inr (Or.inl ⟨rfl, by rw [rolesOf_bull_node, round_bull_node, hs]⟩)
        all_goals { rw [hb] at hn; exact absurd hn (by decide) }
      · rw [if_neg hb] at hrun
        by_cases hbe : node = "bear"
        · rw [if_pos hbe] at hrun
          refine ih "judge" _ s' ?_ hrun
          rcases hinv with ⟨hn, _⟩ | ⟨_, hs⟩ | ⟨hn, _⟩ | ⟨hn, _⟩
          · rw [hbe] at hn; exact absurd hn (by decide)
          · refine Or.inr (Or.inr (Or.inl ⟨rfl, by rw [round_bear_node]; omega, ?_⟩))
            rw [rolesOf_bear_node, round_bear_node, hs]
            simp [List.append_assoc]
          all_goals { rw [hbe] at hn; exact absurd hn (by decide) }
        · rw [if_neg hbe] at hrun
          by_cases hj : node = "judge"
          · rw [if_pos hj] at hrun
            rcases hinv with ⟨hn, _⟩ | ⟨hn, _⟩ | ⟨_, hr, hs⟩ | ⟨hn, _⟩
            · rw [hj] at hn; exact absurd hn (by decide)
            · rw [hj] at hn; exact absurd hn (by decide)
            · have hroles : rolesOf (judge_node judge s) = rolePattern (judge_node judge s).round := by
                rw [rolesOf_judge_node, round_judge_node, hs]
                have h1 : s.round = (s.round - 1) + 1 := by omega
                rw [h1, rolePattern_succ]
                simp [List.append_assoc]
              by_cases hrt : debate_router (judge_node judge s) = "bull"
              · rw [if_pos hrt] at hrun
                exact ih "bull" _ s' (Or.inl ⟨rfl, hroles⟩) hrun
              · rw [if_neg hrt] at hrun
                by_cases hre : debate_router (judge_node judge s) = "end"
                · rw [if_pos hre] at hrun
                  exact ih "end" _ s' (Or.inr (Or.inr (Or.inr ⟨rfl, hroles⟩))) hrun
                · rw [if_neg hre] at hrun
                  exact absurd hrun (by simp)
            · rw [hj] at hn; exact absurd hn (by decide)
          · rw [if_neg hj] at hrun
            by_cases he : node = "end"
            · rw [if_pos he] at hrun
              rcases hinv with ⟨hn, _⟩ | ⟨hn, _⟩ | ⟨hn, _⟩ | ⟨_, hs⟩
              · rw [he] at hn; exact absurd hn (by decide)
              · rw [he] at hn; exact absurd hn (by decide)
              · rw [he] at hn; exact absurd hn (by decide)
              · cases hrun; exact hs
            · rw [if_neg he] at hrun
              exact absurd hrun (by simp)

theorem retryWhile_step (gen : Nat → String) (validate : Nat → String → String)
    (dec refl : String) (rc : Nat) (h1 : hallFlagged refl = true) (h2 : rc < 2) :
    retryWhile gen validate dec refl rc =
      retryWhile gen validate (gen (rc + 1)) (validate (rc + 1) (gen (rc + 1))) (rc + 1) := by
  rw [retryWhile]
  rw [dif_pos ⟨h1, h2⟩]

theorem retryWhile_stop (gen : Nat → String) (validate : Nat → String → String)
    (dec refl : String) (rc : Nat) (h : ¬(hallFlagged refl = true ∧ rc < 2)) :
    retryWhile gen validate dec refl rc = ⟨dec, refl, rc⟩ := by
  rw [retryWhile]
  rw [dif_neg h]

theorem verbatimIn_here (needle q : String) : verbatimIn needle (needle ++ q) :=
  ⟨"", q, by simp⟩

theorem verbatimIn_cons (a : String) {needle hay : String} (h : verbatimIn needle hay) :
    verbatimIn needle (a ++ hay) := by
  obtain ⟨p, q, hpq⟩ := h
  exact ⟨a ++ p, q, by rw [hpq, String.append_assoc]⟩

theorem verbatimInOrder_here {second rest : String} (first : String)
    (h : verbatimIn second rest) : verbatimInOrder first second (first ++ rest) := by
  obtain ⟨q, r, hqr⟩ := h
  exact ⟨"", q, r, by rw [hqr]; simp⟩

theorem verbatimInOrder_cons (a : String) {first second hay : String}
    (h : verbatimInOrder first second hay) : verbatimInOrder first second (a ++ hay) := by
  obtain ⟨p, q, r, hpq⟩ := h
  exact ⟨a ++ p, q, r, by rw [hpq, String.append_assoc]⟩

theorem verbatimInOrder3_here {second third rest : String} (first : String)
    (h : verbatimInOrder second third rest) :
    verbatimInOrder3 first second third (first ++ rest) := by
  obtain ⟨q, r, u, hq⟩ := h
  exact ⟨"", q, r, u, by rw [hq]; simp⟩

theorem verbatimInOrder3_cons (a : String) {first second third hay : String}
    (h : verbatimInOrder3 first second third hay) :
    verbatimInOrder3 first second third (a ++ hay) := by
  obtain ⟨p, q, r, u, hp⟩ := h
  exact ⟨a ++ p, q, r, u, by rw [hp, String.append_assoc]⟩

/-! ## Claim theorems -/

/-- Claim C1.  The claim asserts that with a judge that always answers
"no" and max_rounds=4 the engine ends at round 4 with a transcript of
12 entries, because the round guard fires regardless of the verdict
text.  The code refutes this: debate_router tests the "no" restart
before the round guard and returns "bull" unconditionally, so after 4
completed rounds (round counter 4, transcript length 12) the router
still routes to "bull" rather than "end", and the whole run aborts at
the langgraph recursion limit instead of terminating at round 4. -/
theorem debate_always_no_judge_never_reaches_end :
    (debateCycle (constResearcher "B") (constResearcher "R") (constJudge "no")
      (debateCycle (constResearcher "B") (constResearcher "R") (constJudge "no")
        (debateCycle (constResearcher "B") (constResearcher "R") (constJudge "no")
          (debateCycle (constResearcher "B") (constResearcher "R") (constJudge "no")
            (initDebateState "NVDA" "t" "s" "n" "f" 4))))).round = 4 ∧
    (debateCycle (constResearcher "B") (constResearcher "R") (constJudge "no")
      (debateCycle (constResearcher "B") (constResearcher "R") (constJudge "no")
        (debateCycle (constResearcher "B") (constResearcher "R") (constJudge "no")
          (debateCycle (constResearcher "B") (constResearcher "R") (constJudge "no")
            (initDebateState "NVDA" "t" "s" "n" "f" 4))))).history.length = 12 ∧
    debate_router
      (debateCycle (constResearcher "B") (constResearcher "R") (constJudge "no")
        (debateCycle (constResearcher "B") (constResearcher "R") (constJudge "no")
          (debateCycle (constResearcher "B") (constResearcher "R") (constJudge "no")
            (debateCycle (constResearcher "B") (constResearcher "R") (constJudge "no")
              (initDebateState "NVDA" "t" "s" "n" "f" 4))))) = "bull" ∧
    run_debate_simulation (constResearcher "B") (constResearcher "R") (constJudge "no")
      "NVDA" "t" "s" "n" "f" 4 = .error .recursionLimit :=
  ⟨rfl, rfl, rfl, rfl⟩

/-- Claim C2.  The claim asserts that the workflow entry point returns a
complete result rather than raising.  The code refutes this even on a
fully successful run: with all six producers succeeding, the debate
judge deciding "bull" in round 1, and trader/reflection stubs
answering, workflow raises AttributeError at the read
debate_state.synthesis (line 47), an attribute DebateState never
defines. -/
theorem workflow_always_raises_attribute_error :
    workflow (fun _ => .ok "OK:bullish") (fun _ => .ok "OK:bearish")
      (fun _ => .ok "OK:technical") (fun _ => .ok "OK:sentiment")
      (fun _ => .ok "OK:news") (fun _ => .ok "OK:fundamentals")
      (constResearcher "B") (constResearcher "R") (constJudge "bull")
      (fun _ _ => "Rationale. BUY") (fun _ _ => "NO HALLUCINATION") "TEST"
      = .error (.attributeError "synthesis") :=
  rfl

/-- Claim C6.  The claim asserts that an unparseable judge verdict with
round < max_rounds makes the debate continue another bull, bear, judge
round rather than raising.  The code refutes this: with judge text
"maybe" after round 1 of 4, debate_router falls through to
state.turn, which is "judge" at that point, and "judge" is not a label
of the conditional edge map out of the judge node, so the graph run
raises instead of continuing. -/
theorem unparseable_verdict_raises_unknown_route :
    debate_router
      (debateCycle (constResearcher "B") (constResearcher "R") (constJudge "maybe")
        (initDebateState "NVDA" "t" "s" "n" "f" 4)) = "judge" ∧
    run_debate_simulation (constResearcher "B") (constResearcher "R") (constJudge "maybe")
      "NVDA" "t" "s" "n" "f" 4 = .error (.unknownRoute "judge") :=
  ⟨rfl, rfl⟩

/-- Claim C7.  In every debate run that terminates, the transcript role
sequence is exactly round many repetitions of bull, bear, judge — so
turns within each round occur in that order, the round counter equals
the number of completed cycles (incremented exactly once per cycle, at
the bear turn), and the transcript has three entries per round. -/
theorem debate_transcript_role_pattern (bull : ResearchFn) (bear : ResearchFn)
    (judge : JudgeFn) (ticker technical sentiment news fundamentals : String)
    (max_rounds : Nat) (s' : DebateState)
    (h : run_debate_simulation bull bear judge ticker technical sentiment news
      fundamentals max_rounds = .ok s') :
    rolesOf s' = rolePattern s'.round ∧ s'.history.length = 3 * s'.round := by
  have hroles : rolesOf s' = rolePattern s'.round :=
    runDebateFrom_roles bull bear judge langgraphRecursionLimit "bull"
      (initDebateState ticker technical sentiment news fundamentals max_rounds) s'
      (Or.inl ⟨rfl, by simp [rolesOf, initDebateState, rolePattern]⟩) h
  refine ⟨hroles, ?_⟩
  have hlen : s'.history.length = (rolesOf s').length := by simp [rolesOf]
  rw [hlen, hroles]
  simp [rolePattern, Nat.mul_comm]

/-- Witness for claim C7: a concrete run (judge answers "bull" in round
one) terminates, and its transcript roles are one bull, bear, judge
cycle with round counter 1. -/
theorem debate_transcript_role_pattern_witness :
    ∃ s', run_debate_simulation (constResearcher "B") (constResearcher "R")
        (constJudge "bull") "NVDA" "t" "s" "n" "f" 4 = .ok s' ∧
      rolesOf s' = rolePattern s'.round ∧ s'.history.length = 3 * s'.round := by
  have h : run_debate_simulation (constResearcher "B") (constResearcher "R")
      (constJudge "bull") "NVDA" "t" "s" "n" "f" 4 =
      .ok { ticker := "NVDA", technical := "t", sentiment := "s", news := "n",
            fundamentals := "f",
            history := [⟨"bull", "B"⟩, ⟨"bear", "R"⟩, ⟨"judge", "bull"⟩],
            turn := "judge", round := 1, max_rounds := 4,
            judge_verdict := some "bull" } := rfl
  exact ⟨_, h, debate_transcript_role_pattern _ _ _ _ _ _ _ _ _ _ h⟩

/-- Helper: when the reflection capability always produces a flagged
text, the decision stage performs the initial attempt plus exactly two
retries and ends with retry_count 2. -/
theorem retryLoop_always_flagged (gen : Nat → String) (validate : Nat → String → String)
    (hflag : ∀ k d, hallFlagged (validate k d) = true) :
    decisionRetryLoop gen validate = ⟨gen 2, validate 2 (gen 2), 2⟩ := by
  simp only [decisionRetryLoop]
  rw [retryWhile_step gen validate (gen 0) (validate 0 (gen 0)) 0 (hflag 0 (gen 0)) (by omega)]
  rw [retryWhile_step gen validate (gen 1) (validate 1 (gen 1)) 1 (hflag 1 (gen 1)) (by omega)]
  exact retryWhile_stop gen validate (gen 2) (validate 2 (gen 2)) 2 (by omega)

/-- Claim C5.  After a judge turn: if the judge text lower-cased starts
with "no", the router returns "bull" (back to the bull turn) with the
transcript extended only by the judge entry and the round counter
unchanged; otherwise, if the lower-cased text contains "bull", "bear"
or "tie", the router returns "end" and the state records the judge text
as the verdict. -/
theorem judge_parse_and_routing (judge : JudgeFn) (s : DebateState) :
    (pyStartsWith (pyLower (judge s.ticker s.history)) "no" = true →
      s.round < s.max_rounds →
      debate_router (judge_node judge s) = "bull" ∧
      (judge_node judge s).history = s.history ++ [⟨"judge", judge s.ticker s.history⟩] ∧
      (judge_node judge s).round = s.round) ∧
    (pyStartsWith (pyLower (judge s.ticker s.history)) "no" = false →
      (pyIn "bull" (pyLower (judge s.ticker s.history)) ||
       pyIn "bear" (pyLower (judge s.ticker s.history)) ||
       pyIn "tie" (pyLower (judge s.ticker s.history))) = true →
      debate_router (judge_node judge s) = "end" ∧
      (judge_node judge s).judge_verdict = some (judge s.ticker s.history)) := by
  constructor
  · intro h1 _h2
    refine ⟨?_, ?_, ?_⟩
    · simp [debate_router, judge_node, DebateState.add_message, h1]
    · simp [judge_node, DebateState.add_message]
    · simp [judge_node, DebateState.add_message]
  · intro h1 h2
    refine ⟨?_, ?_⟩
    · simp [debate_router, judge_node, DebateState.add_message, h1, h2]
    · simp [judge_node, DebateState.add_message]

/-- Witness for claim C5: both branches at concrete inputs — a judge
text "No, run another round." routes back to "bull" keeping transcript
and round, and a judge text "The bull side wins." routes to "end". -/
theorem judge_parse_and_routing_witness :
    (debate_router (judge_node (constJudge "No, run another round.")
        { initDebateState "T" "a" "b" "c" "d" 4 with round := 1 }) = "bull" ∧
      (judge_node (constJudge "No, run another round.")
        { initDebateState "T" "a" "b" "c" "d" 4 with round := 1 }).history =
        ({ initDebateState "T" "a" "b" "c" "d" 4 with round := 1 } : DebateState).history ++
          [⟨"judge", "No, run another round."⟩] ∧
      (judge_node (constJudge "No, run another round.")
        { initDebateState "T" "a" "b" "c" "d" 4 with round := 1 }).round =
        ({ initDebateState "T" "a" "b" "c" "d" 4 with round := 1 } : DebateState).round) ∧
    (debate_router (judge_node (constJudge "The bull side wins.")
        { initDebateState "T" "a" "b" "c" "d" 4 with round := 1 }) = "end" ∧
      (judge_node (constJudge "The bull side wins.")
        { initDebateState "T" "a" "b" "c" "d" 4 with round := 1 }).judge_verdict =
        some "The bull side wins.") :=
  ⟨(judge_parse_and_routing (constJudge "No, run another round.")
      { initDebateState "T" "a" "b" "c" "d" 4 with round := 1 }).1 (by decide) (by decide),
   (judge_parse_and_routing (constJudge "The bull side wins.")
      { initDebateState "T" "a" "b" "c" "d" 4 with round := 1 }).2 (by decide) (by decide)⟩

/-- Counterexample for claim C3: with the sentiment producer raising and
all five siblings succeeding, the fan-out stage propagates the raise —
there is no bundle at all, in particular no six-key bundle holding an
error-tagged sentiment slot beside completed siblings. -/
theorem failing_producer_aborts_fanout :
    run_parallel_analysts (fun _ => .ok "OK:bullish") (fun _ => .ok "OK:bearish")
      (fun _ => .ok "OK:technical") (fun _ => .error "ProducerError: sentiment failed")
      (fun _ => .ok "OK:news") (fun _ => .ok "OK:fundamentals") "TEST"
      = .error "ProducerError: sentiment failed" ∧
    (run_parallel_analysts (fun _ => .ok "OK:bullish") (fun _ => .ok "OK:bearish")
      (fun _ => .ok "OK:technical") (fun _ => .error "ProducerError: sentiment failed")
      (fun _ => .ok "OK:news") (fun _ => .ok "OK:fundamentals") "TEST").isOk = false :=
  ⟨rfl, rfl⟩

/-- Claim C3 as amended: when all six producers succeed, the fan-out
stage returns the bundle with exactly the six fixed report keys, each
slot carrying its own producer result; when any producer raises, the
whole stage raises and no bundle is produced. -/
theorem fanout_six_keys_on_success
    (bullish bearish technical sentiment news fundamentals : String → Except String String)
    (ticker b br t se ne fu : String)
    (h1 : bullish ticker = .ok b) (h2 : bearish ticker = .ok br)
    (h3 : technical ticker = .ok t) (h4 : sentiment ticker = .ok se)
    (h5 : news ticker = .ok ne) (h6 : fundamentals ticker = .ok fu) :
    run_parallel_analysts bullish bearish technical sentiment news fundamentals ticker =
      .ok [("bullish_report", b), ("bearish_report", br), ("technical_report", t),
           ("sentiment_report", se), ("news_report", ne), ("fundamentals_report", fu)] ∧
    (run_parallel_analysts bullish bearish technical sentiment news fundamentals ticker).map
      (fun d => d.map Prod.fst) = .ok analystReportKeys := by
  have hok : run_parallel_analysts bullish bearish technical sentiment news fundamentals ticker =
      .ok [("bullish_report", b), ("bearish_report", br), ("technical_report", t),
           ("sentiment_report", se), ("news_report", ne), ("fundamentals_report", fu)] := by
    unfold run_parallel_analysts
    rw [h1, h2, h3, h4, h5, h6]
    rfl
  exact ⟨hok, by rw [hok]; rfl⟩

/-- Witness for the amended claim C3: six concrete succeeding producers
yield exactly the six-key bundle. -/
theorem fanout_six_keys_on_success_witness :
    run_parallel_analysts (fun _ => .ok "OK:bullish") (fun _ => .ok "OK:bearish")
      (fun _ => .ok "OK:technical") (fun _ => .ok "OK:sentiment")
      (fun _ => .ok "OK:news") (fun _ => .ok "OK:fundamentals") "TEST" =
      .ok [("bullish_report", "OK:bullish"), ("bearish_report", "OK:bearish"),
           ("technical_report", "OK:technical"), ("sentiment_report", "OK:sentiment"),
           ("news_report", "OK:news"), ("fundamentals_report", "OK:fundamentals")] :=
  (fanout_six_keys_on_success (fun _ => .ok "OK:bullish") (fun _ => .ok "OK:bearish")
    (fun _ => .ok "OK:technical") (fun _ => .ok "OK:sentiment")
    (fun _ => .ok "OK:news") (fun _ => .ok "OK:fundamentals") "TEST"
    "OK:bullish" "OK:bearish" "OK:technical" "OK:sentiment" "OK:news" "OK:fundamentals"
    rfl rfl rfl rfl rfl rfl).1

/-- Claim C4.  The claim asserts zero retries when the validator reports
no hallucination.  The code refutes this at the validator response
"NO HALLUCINATION" — the documented not-flagged reply of the reflection
agent: the loop guard tests substring containment of "HALLUCINATION" in
the upper-cased reflection, which holds for "NO HALLUCINATION", so the
loop exhausts both retries (retry_count 2, not 0). -/
theorem no_hallucination_reply_still_retries :
    decisionRetryLoop (fun _ => "Rationale. BUY") (fun _ _ => "NO HALLUCINATION") =
      ⟨"Rationale. BUY", "NO HALLUCINATION", 2⟩ ∧
    hallFlagged "NO HALLUCINATION" = true ∧
    (decisionRetryLoop (fun _ => "Rationale. BUY")
      (fun _ _ => "NO HALLUCINATION")).retry_count ≠ 0 := by
  have h := retryLoop_always_flagged (fun _ => "Rationale. BUY")
    (fun _ _ => "NO HALLUCINATION")
    (fun _ _ => (by decide : hallFlagged "NO HALLUCINATION" = true))
  exact ⟨h, by decide, by rw [h]; decide⟩

/-- Claim C8.  With a validator that flags every attempt, the decision
stage performs exactly MAX_RETRIES + 1 = 3 generation attempts (the
initial one plus retry_count = 2 retries), and returns the third
attempt's decision together with a reflection that is still flagged,
without raising. -/
theorem always_flagged_three_attempts (gen : Nat → String) (validate : Nat → String → String)
    (hflag : ∀ k d, hallFlagged (validate k d) = true) :
    decisionRetryLoop gen validate = ⟨gen 2, validate 2 (gen 2), 2⟩ ∧
    (decisionRetryLoop gen validate).retry_count + 1 = 3 ∧
    hallFlagged (decisionRetryLoop gen validate).reflection = true := by
  have h := retryLoop_always_flagged gen validate hflag
  exact ⟨h, by rw [h], by rw [h]; exact hflag 2 (gen 2)⟩

/-- Witness for claim C8: a concrete always-flagging validator yields the
third decision, the flagged reflection, and retry_count 2. -/
theorem always_flagged_three_attempts_witness :
    decisionRetryLoop (fun _ => "D") (fun _ _ => "HALLUCINATION DETECTED") =
      ⟨"D", "HALLUCINATION DETECTED", 2⟩ :=
  (always_flagged_three_attempts (fun _ => "D") (fun _ _ => "HALLUCINATION DETECTED")
    (fun _ _ => (by decide : hallFlagged "HALLUCINATION DETECTED" = true))).1

/-- Claim C9.  The risk-stance chain is strictly sequential and
single-pass: the aggressive prompt is built from only the ticker and
the three input reports (the other-stance slots are the empty-string
defaults); the neutral stance's input context contains the aggressive
response verbatim; the safe (conservative) stance's input context
contains both prior responses verbatim in generation order; and the
final synthesis prompt contains the three stance texts verbatim in
generation order. -/
theorem risk_chain_sequential_contexts (invA invN invS invSy : String → String)
    (ticker sentiment news fundamentals trader_plan hist : String) :
    (risk_chain invA invN invS invSy ticker sentiment news fundamentals trader_plan hist).risky_prompt =
      aggressive_debate_prompt ticker sentiment news fundamentals "" "" "" ∧
    verbatimIn
      (risk_chain invA invN invS invSy ticker sentiment news fundamentals trader_plan hist).risky_response
      (risk_chain invA invN invS invSy ticker sentiment news fundamentals trader_plan hist).neutral_prompt ∧
    verbatimInOrder
      (risk_chain invA invN invS invSy ticker sentiment news fundamentals trader_plan hist).risky_response
      (risk_chain invA invN invS invSy ticker sentiment news fundamentals trader_plan hist).neutral_response
      (risk_chain invA invN invS invSy ticker sentiment news fundamentals trader_plan hist).safe_prompt ∧
    verbatimInOrder3
      (risk_chain invA invN invS invSy ticker sentiment news fundamentals trader_plan hist).risky_response
      (risk_chain invA invN invS invSy ticker sentiment news fundamentals trader_plan hist).neutral_response
      (risk_chain invA invN invS invSy ticker sentiment news fundamentals trader_plan hist).safe_response
      (risk_chain invA invN invS invSy ticker sentiment news fundamentals trader_plan hist).synthesis_prompt := by
  refine ⟨rfl, ?_, ?_, ?_⟩
  · simp only [risk_chain, neutral_debate_prompt, String.append_assoc]
    repeat (first | exact verbatimIn_here _ _ | apply verbatimIn_cons)
  · simp only [risk_chain, conservative_debate_prompt, String.append_assoc]
    repeat (first
      | exact verbatimIn_here _ _
      | refine verbatimInOrder_here _ ?_
      | apply verbatimInOrder_cons
      | apply verbatimIn_cons)
  · simp only [risk_chain, synthesize_prompt, String.append_assoc]
    repeat (first
      | exact verbatimIn_here _ _
      | refine verbatimInOrder_here _ ?_
      | refine verbatimInOrder3_here _ ?_
      | apply verbatimInOrder3_cons
      | apply verbatimInOrder_cons
      | apply verbatimIn_cons)

/-- Claim C10.  The prompt built through the synchronous wrapper
TraderAgent.trade_decision carries the caller's risk argument r on the
"Fundamentals Report:" line and the caller's fundamentals argument f on
the "Risk Report:" line, because the wrapper forwards its arguments
positionally into trade_decision_async, whose parameter order swaps the
last two. -/
theorem trade_decision_swaps_fundamentals_and_risk (c re m s n f r : String) :
    ∃ p q, trade_decision_prompt c re m s n f r =
      p ++ ("Fundamentals Report: " ++ (r ++ ("\n" ++ ("Risk Report: " ++ (f ++ q))))) := by
  refine ⟨"Company: " ++ (c ++ ("\n" ++ ("Research Report: " ++ (re ++ ("\n" ++
      ("Market Report: " ++ (m ++ ("\n" ++ ("Sentiment Report: " ++ (s ++ ("\n" ++
      ("News Report: " ++ (n ++ "\n"))))))))))))),
    "\n\n" ++ "Based on the above, provide a clear rationale and end your response with only one of these: BUY, HOLD, or SELL.", ?_⟩
  simp only [trade_decision_prompt, trade_decision_async_prompt, String.append_assoc]
